import Mathlib

/-!
Shallow embedding of the gunship-rs rendering core: the `gl-util` buffer and
draw-builder layer (src/lib/gl-util/src/lib.rs) and the `polygon_rs` GL
renderer (src/lib/polygon_rs/src/gl/mod.rs).

Device-side effects (OpenGL calls) are modelled by recording the data the
code hands to the device; registries backed by `HashMap` are modelled as
association lists, with the map's unspecified iteration order passed in
explicitly where the code iterates over a map.  Rust `panic!` / `expect` /
`assert!` failures are modelled as `Option.none` results.  `f32` values are
carried symbolically (they are only stored and forwarded on the modelled
paths, never computed with).
-/

namespace Gunship

/-- Scalar float values: only stored and forwarded by the modelled code,
so an exact carrier is faithful. -/
abbrev F32 := ℚ

/-- Matrix values from the math library (consumed as opaque numeric types per
the spec).  The renderer only composes and forwards them, so they are carried
as expression trees recording exactly which composite the code computed. -/
inductive Mat where
  | base (tag : Nat)
  | mul (a b : Mat)
  | transposed (m : Mat)
deriving DecidableEq, Repr

/-- Point/vector values from the math library, carried symbolically. -/
inductive Vec where
  | base (tag : Nat)
  | mulMat (v : Vec) (m : Mat)
deriving DecidableEq, Repr

/-- A quadruple of `f32` handed to the device: either a literal quadruple
(colors) or the `as_array` view of an opaque math vector. -/
inductive F4 where
  | lit (a b c d : F32)
  | ofVec (v : Vec)
deriving DecidableEq, Repr

/-- A triple of `f32` handed to the device. -/
inductive F3 where
  | lit (a b c : F32)
  | ofVec (v : Vec)
deriving DecidableEq, Repr

/-- `Color` (math crate, out of scope in src/): an RGBA quadruple.
`Color::rgb` sets alpha to 1. -/
structure Color where
  r : F32
  g : F32
  b : F32
  a : F32
deriving DecidableEq, Repr

def Color.rgb (r g b : F32) : Color := ⟨r, g, b, 1⟩

/-- Modelled from the spec: material property values default to their type's
default value; the default `Color`. -/
def Color.default : Color := ⟨0, 0, 0, 0⟩

/-- `Vector3` (math crate): a triple of `f32`. -/
structure Vector3 where
  x : F32
  y : F32
  z : F32
deriving DecidableEq, Repr

def Vector3.default : Vector3 := ⟨0, 0, 0⟩

/-! ### gl enums (bootstrap_gl crate, consumed as plain enums) -/

inductive Face where
  | front
  | back
deriving DecidableEq, Repr

inductive Comparison where
  | never
  | less
  | equal
  | lessThanOrEqual
  | greater
  | notEqual
  | greaterThanOrEqual
  | always
deriving DecidableEq, Repr

inductive PolygonMode where
  | point
  | line
  | fill
deriving DecidableEq, Repr

/-- Modelled from the spec: "apply polygon mode (default if unset)"; the GL
default polygon mode is filled. -/
def PolygonMode.defaultMode : PolygonMode := .fill

inductive WindingOrder where
  | clockwise
  | counterClockwise
deriving DecidableEq, Repr

def WindingOrder.defaultOrder : WindingOrder := .counterClockwise

inductive SourceFactor where
  | one
  | zero
  | sourceAlpha
deriving DecidableEq, Repr

inductive DestFactor where
  | zero
  | one
  | oneMinusSourceAlpha
deriving DecidableEq, Repr

/-- Modelled from the spec: the ambient pass runs with "no blending", i.e.
the default blend factors (source one, dest zero). -/
def defaultBlend : SourceFactor × DestFactor := (.one, .zero)

inductive DrawMode where
  | points
  | lines
  | triangles
deriving DecidableEq, Repr

inductive ShaderType where
  | vertex
  | fragment
deriving DecidableEq, Repr

/-! ### Association-list helpers standing in for `HashMap` -/

/-- `HashMap::get` for a `Nat`-keyed registry. -/
def lookupNat {α : Type} (m : List (Nat × α)) (k : Nat) : Option α :=
  match m with
  | [] => none
  | (k', v) :: rest => if k' = k then some v else lookupNat rest k

/-- `HashMap::get` for a `String`-keyed map. -/
def lookupStr {α : Type} (m : List (String × α)) (k : String) : Option α :=
  match m with
  | [] => none
  | (k', v) :: rest => if k' = k then some v else lookupStr rest k

/-- `HashMap::insert`: replaces the value under `k` if present, else appends;
returns the new map (the map keeps one entry per key). -/
def insertNat {α : Type} (m : List (Nat × α)) (k : Nat) (v : α) : List (Nat × α) :=
  match m with
  | [] => [(k, v)]
  | (k', v') :: rest =>
    if k' = k then (k, v) :: rest else (k', v') :: insertNat rest k v

/-- `HashMap::insert` on a `String`-keyed map. -/
def insertStr {α : Type} (m : List (String × α)) (k : String) (v : α) : List (String × α) :=
  match m with
  | [] => [(k, v)]
  | (k', v') :: rest =>
    if k' = k then (k, v) :: rest else (k', v') :: insertStr rest k v

/-! ### gl-util: vertex and index buffers (src/lib/gl-util/src/lib.rs) -/

/-- `AttribLayout`: how one named attribute is packed in a vertex buffer. -/
structure AttribLayout where
  elements : Nat
  stride : Nat
  offset : Nat
deriving DecidableEq, Repr

/-- `VertexBuffer`: device buffer name, stored length (in `f32` elements),
the computed per-attribute element count, and the named attribute table. -/
structure VertexBuffer where
  bufferName : Nat
  len : Nat
  elementLen : Nat
  attribs : List (String × AttribLayout)
deriving DecidableEq, Repr

/-- `VertexBuffer::new`: created empty (the device buffer name comes from
`gl::gen_buffers`). -/
def VertexBuffer.new (bufferName : Nat) : VertexBuffer :=
  { bufferName := bufferName, len := 0, elementLen := 0, attribs := [] }

/-- `VertexBuffer::set_data_f32`: uploads the slice and records its length. -/
def VertexBuffer.setDataF32 (vb : VertexBuffer) (data : List F32) : VertexBuffer :=
  { vb with len := data.length }

/-- `VertexBuffer::set_attrib_f32`: records the layout under the attribute
name and recomputes the implied element count as
`(len - offset) / elements + stride` (truncating integer division, as in the
source). -/
def VertexBuffer.setAttribF32 (vb : VertexBuffer) (attrib : String)
    (layout : AttribLayout) : VertexBuffer :=
  { vb with
    elementLen := (vb.len - layout.offset) / layout.elements + layout.stride,
    attribs := insertStr vb.attribs attrib layout }

/-- `IndexBuffer`. -/
structure IndexBuffer where
  bufferName : Nat
  len : Nat
deriving DecidableEq, Repr

def IndexBuffer.new (bufferName : Nat) : IndexBuffer :=
  { bufferName := bufferName, len := 0 }

/-- `IndexBuffer::set_data_u32`. -/
def IndexBuffer.setDataU32 (ib : IndexBuffer) (data : List Nat) : IndexBuffer :=
  { ib with len := data.length }

/-- `VertexArray`: owns one vertex buffer and at most one index buffer. -/
structure VertexArray where
  vertexArrayName : Nat
  vertexBuffer : VertexBuffer
  indexBuffer : Option IndexBuffer
deriving DecidableEq, Repr

/-- `VertexArray::new`. -/
def VertexArray.new (name : Nat) (vb : VertexBuffer) : VertexArray :=
  { vertexArrayName := name, vertexBuffer := vb, indexBuffer := none }

/-- `VertexArray::with_index_buffer`. -/
def VertexArray.withIndexBuffer (name : Nat) (vb : VertexBuffer)
    (ib : IndexBuffer) : VertexArray :=
  { vertexArrayName := name, vertexBuffer := vb, indexBuffer := some ib }

/-! ### Shader programs and textures (gl-util `shader`/`texture` modules;
those modules' sources are not under src/, so their data is modelled from the
spec) -/

/-- Modelled from the spec: a compiled `Program` is "compiled device program
plus a cache of uniform name → location"; `get_attrib` similarly resolves
program input-variable names to attribute locations.  The missing
`gl_util::shader` module is modelled by these two lookup tables. -/
structure Program where
  programName : Nat
  uniforms : List (String × Nat)
  attribs : List (String × Nat)
deriving DecidableEq, Repr

/-- `Program::get_uniform_location`. -/
def Program.getUniformLocation (p : Program) (name : String) : Option Nat :=
  lookupStr p.uniforms name

/-- `Program::get_attrib`. -/
def Program.getAttrib (p : Program) (name : String) : Option Nat :=
  lookupStr p.attribs name

/-- A device-side 2d texture (`gl_util::texture::Texture2d`, module not under
src/): either one produced by `Texture2d::new` from uploaded data (tagged by
its device name) or the empty texture produced by `Texture2d::empty`. -/
inductive GlTexture2d where
  | registered (deviceName : Nat)
  | defaultEmpty
deriving DecidableEq, Repr

/-- `UniformValue`: a value staged for a uniform variable. -/
inductive UniformValue where
  | f32 (x : F32)
  | f32x2 (x y : F32)
  | f32x3 (v : F3)
  | f32x4 (v : F4)
  | i32 (n : Int)
  | u32 (n : Nat)
  | matrix (data : Mat) (transpose : Bool)
  | texture (t : GlTexture2d)
deriving DecidableEq, Repr

/-! ### gl-util: DrawBuilder (src/lib/gl-util/src/lib.rs) -/

/-- `DrawBuilder`: per-draw-call configuration.  The staged uniform map is
keyed by resolved `UniformLocation`. -/
structure DrawBuilder where
  vertexArray : VertexArray
  drawMode : DrawMode
  polygonMode : Option PolygonMode
  program : Option Program
  cull : Option Face
  depthTest : Option Comparison
  windingOrder : WindingOrder
  blend : SourceFactor × DestFactor
  uniforms : List (Nat × UniformValue)
deriving DecidableEq, Repr

namespace DrawBuilder

/-- `DrawBuilder::new`. -/
def new (vertexArray : VertexArray) (drawMode : DrawMode) : DrawBuilder :=
  { vertexArray := vertexArray
    drawMode := drawMode
    polygonMode := none
    program := none
    cull := none
    depthTest := none
    windingOrder := WindingOrder.defaultOrder
    blend := defaultBlend
    uniforms := [] }

/-- `DrawBuilder::polygon_mode`. -/
def setPolygonMode (b : DrawBuilder) (m : PolygonMode) : DrawBuilder :=
  { b with polygonMode := some m }

/-- `DrawBuilder::program` (the context-match assertion always holds in this
single-context model). -/
def setProgram (b : DrawBuilder) (p : Program) : DrawBuilder :=
  { b with program := some p }

/-- `DrawBuilder::cull`. -/
def setCull (b : DrawBuilder) (face : Face) : DrawBuilder :=
  { b with cull := some face }

/-- `DrawBuilder::depth_test`. -/
def setDepthTest (b : DrawBuilder) (comparison : Comparison) : DrawBuilder :=
  { b with depthTest := some comparison }

/-- `DrawBuilder::winding`. -/
def setWinding (b : DrawBuilder) (w : WindingOrder) : DrawBuilder :=
  { b with windingOrder := w }

/-- `DrawBuilder::blend`. -/
def setBlend (b : DrawBuilder) (s : SourceFactor) (d : DestFactor) : DrawBuilder :=
  { b with blend := (s, d) }

/-- `DrawBuilder::map_attrib_location`: panics (`none`) when the vertex
buffer has no attribute of that name; otherwise issues the device
attrib-pointer calls and leaves the builder unchanged. -/
def mapAttribLocation (b : DrawBuilder) (bufferAttribName : String)
    (attribLocation : Nat) : Option DrawBuilder :=
  match lookupStr b.vertexArray.vertexBuffer.attribs bufferAttribName with
  | some _ =>
    -- gl::enable_vertex_attrib_array / gl::vertex_attrib_pointer at
    -- `attribLocation` with the layout: device-side only.
    let _ := attribLocation
    some b
  | none => none

/-- `DrawBuilder::map_attrib_name`: panics (`none`) when no program was set;
silently a no-op when the program has no such input variable or the buffer
has no such attribute; otherwise issues the device attrib-pointer calls and
leaves the builder unchanged. -/
def mapAttribName (b : DrawBuilder) (bufferAttribName programAttribName : String) :
    Option DrawBuilder :=
  match b.program with
  | none => none
  | some program =>
    match program.getAttrib programAttribName with
    | none => some b
    | some attrib =>
      match lookupStr b.vertexArray.vertexBuffer.attribs bufferAttribName with
      | none => some b
      | some _ =>
        let _ := attrib
        some b

/-- `DrawBuilder::uniform`: panics (`none`) when no program was set; silently
a no-op when the program's uniform table has no such name; otherwise stages
the value under the resolved location, overwriting any prior value there. -/
def uniform (b : DrawBuilder) (name : String) (value : UniformValue) :
    Option DrawBuilder :=
  match b.program with
  | none => none
  | some program =>
    match program.getUniformLocation name with
    | none => some b
    | some location => some { b with uniforms := insertNat b.uniforms location value }

/-- The element source of the device draw call issued by `draw()`: indexed
(`gl::draw_elements` with the index buffer's length) or not
(`gl::draw_arrays` with the vertex buffer's computed element count). -/
inductive ElementSource where
  | indexed (count : Nat)
  | arrays (count : Nat)
deriving DecidableEq, Repr

/-- One device draw call as issued by `DrawBuilder::draw`, recording the
render state the builder applied before the call. -/
structure DrawCall where
  polygonMode : PolygonMode
  program : Option Program
  cull : Option Face
  windingOrder : WindingOrder
  depthTest : Option Comparison
  blend : SourceFactor × DestFactor
  uniforms : List (Nat × UniformValue)
  vertexArrayName : Nat
  elements : ElementSource
deriving DecidableEq, Repr

/-- `DrawBuilder::draw`: applies polygon mode (default if unset), program,
cull state, depth-test state, blend factors and the staged uniforms, then
issues exactly one device draw call, indexed iff an index buffer is
present. -/
def draw (b : DrawBuilder) : DrawCall :=
  { polygonMode := b.polygonMode.getD PolygonMode.defaultMode
    program := b.program
    cull := b.cull
    windingOrder := b.windingOrder
    depthTest := b.depthTest
    blend := b.blend
    uniforms := b.uniforms
    vertexArrayName := b.vertexArray.vertexArrayName
    elements :=
      match b.vertexArray.indexBuffer with
      | some indices => .indexed indices.len
      | none => .arrays b.vertexArray.vertexBuffer.elementLen }

end DrawBuilder

/-! ### Materials (polygon_rs; the `material`/`polygon_material` modules are
not under src/, so their data is modelled from the spec) -/

/-- `GpuTexture`: the renderer's id type for registered textures. -/
abbrev GpuTexture := Nat

/-- Modelled from the spec: id types default to their initial value. -/
def GpuTexture.default : GpuTexture := 0

/-- `PropertyType`: the declarable material property types. -/
inductive PropertyType where
  | color
  | texture2d
  | f32
  | vector3
deriving DecidableEq, Repr

/-- One `(name, type)` property declaration of a material source. -/
structure PropertySource where
  name : String
  propertyType : PropertyType
deriving DecidableEq, Repr

/-- A vertex or fragment program source block of a material source
(`program_source.is_vertex()` / `is_fragment()` / `source()`). -/
structure ProgramSource where
  shaderType : ShaderType
  source : String
deriving DecidableEq, Repr

def ProgramSource.isVertex (p : ProgramSource) : Bool :=
  p.shaderType = ShaderType.vertex

def ProgramSource.isFragment (p : ProgramSource) : Bool :=
  p.shaderType = ShaderType.fragment

/-- Modelled from the spec: a material source is "a property list
(`name, type`) and optional custom vertex/fragment source fragments". -/
structure MaterialSource where
  properties : List PropertySource
  programs : List ProgramSource
deriving DecidableEq, Repr

/-- `MaterialProperty`: a material property value
(`{Color|Texture|Scalar|Vector3}`). -/
inductive MaterialProperty where
  | color (c : Color)
  | f32 (x : F32)
  | vector3 (v : Vector3)
  | texture (t : GpuTexture)
deriving DecidableEq, Repr

/-- Modelled from the spec: a `Material` is a shader program reference plus a
named set of properties; `set_color`/`set_f32`/`set_vector3`/`set_texture`
write one named property (last write wins). -/
structure Material where
  shader : Nat
  properties : List (String × MaterialProperty)
deriving DecidableEq, Repr

def Material.new (shader : Nat) : Material :=
  { shader := shader, properties := [] }

def Material.setColor (m : Material) (name : String) (c : Color) : Material :=
  { m with properties := insertStr m.properties name (.color c) }

def Material.setTexture (m : Material) (name : String) (t : GpuTexture) : Material :=
  { m with properties := insertStr m.properties name (.texture t) }

def Material.setF32 (m : Material) (name : String) (x : F32) : Material :=
  { m with properties := insertStr m.properties name (.f32 x) }

def Material.setVector3 (m : Material) (name : String) (v : Vector3) : Material :=
  { m with properties := insertStr m.properties name (.vector3 v) }

/-! ### Scene objects (polygon_rs `anchor`/`camera`/`light`/`mesh_instance`
modules, not under src/; modelled from the spec) -/

/-- Modelled from the spec: an `Anchor` is "a scene node holding a world
transform"; the renderer reads its model matrix, normal matrix (inverse
transpose convention), view matrix, inverse view matrix and position. -/
structure Anchor where
  matrixM : Mat
  normalMatrixM : Mat
  viewMatrixM : Mat
  inverseViewMatrixM : Mat
  position : Vec
deriving DecidableEq, Repr

/-- Modelled from the spec: a camera references an optional anchor and
provides a projection matrix. -/
structure Camera where
  anchor : Option Nat
  projectionMatrixM : Mat
deriving DecidableEq, Repr

/-- Modelled from the spec: a mesh instance references an optional anchor, a
registered mesh, and holds a material by value. -/
structure MeshInstance where
  anchor : Option Nat
  mesh : Nat
  material : Material
deriving DecidableEq, Repr

/-- `LightData`: point (radius) or directional (direction). -/
inductive LightData where
  | point (radius : F32)
  | directional (direction : Vec)
deriving DecidableEq, Repr

/-- Modelled from the spec: a light has an optional anchor, a color, a
strength, and type-specific data. -/
structure Light where
  anchor : Option Nat
  color : Color
  strength : F32
  data : LightData
deriving DecidableEq, Repr

/-- `VertexAttribute` (geometry::mesh): per-attribute layout descriptor of
the mesh input contract. -/
structure VertexAttribute where
  elements : Nat
  stride : Nat
  offset : Nat
deriving DecidableEq, Repr

/-- Modelled from the spec: the mesh input contract is "raw interleaved
float vertex data plus per-attribute layout descriptors (position mandatory;
normal and one texcoord set optional) and an unsigned 32-bit index array". -/
structure Mesh where
  vertexData : List F32
  position : VertexAttribute
  normal : Option VertexAttribute
  texcoord : List VertexAttribute
  indices : List Nat
deriving DecidableEq, Repr

/-- `MeshData`: what the renderer stores per registered mesh. -/
structure MeshData where
  vertexArray : VertexArray
  positionAttribute : VertexAttribute
  normalAttribute : Option VertexAttribute
  uvAttribute : Option VertexAttribute
  elementCount : Nat
deriving DecidableEq, Repr

/-! ### The renderer's registries and counters
(src/lib/polygon_rs/src/gl/mod.rs, `GlRender`) -/

/-- Modelled from the spec: the id `Counter` type (polygon_rs root module,
not under src/) yields "a monotonically increasing id type that is never
reused": `next()` returns the current id and advances the counter. -/
def Counter.next (c : Nat) : Nat × Nat := (c, c + 1)

/-- Modelled from the spec: counters start at their initial id. -/
def Counter.initial : Nat := 0

/-- `HashMap::insert` followed by `assert!(old.is_none())`: fatal (`none`)
when the key is already present. -/
def insertAssertNat {α : Type} (m : List (Nat × α)) (k : Nat) (v : α) :
    Option (List (Nat × α)) :=
  match lookupNat m k with
  | some _ => none
  | none => some (insertNat m k v)

/-- `GlRender`: the renderer's registries, id counters and ambient color.
The device context and the default material are carried implicitly. -/
structure GlState where
  materials : List (Nat × Material)
  meshes : List (Nat × MeshData)
  textures : List (Nat × GlTexture2d)
  meshInstances : List (Nat × MeshInstance)
  anchors : List (Nat × Anchor)
  cameras : List (Nat × Camera)
  lights : List (Nat × Light)
  programs : List (Nat × Program)
  materialCounter : Nat
  meshCounter : Nat
  textureCounter : Nat
  meshInstanceCounter : Nat
  anchorCounter : Nat
  cameraCounter : Nat
  lightCounter : Nat
  shaderCounter : Nat
  ambientColor : Color
deriving DecidableEq, Repr

/-- The registry/counter part of `GlRender::new`: all registries empty, all
counters at their initial id, ambient color `Color::rgb(0.01, 0.01, 0.01)`. -/
def GlState.new : GlState :=
  { materials := []
    meshes := []
    textures := []
    meshInstances := []
    anchors := []
    cameras := []
    lights := []
    programs := []
    materialCounter := Counter.initial
    meshCounter := Counter.initial
    textureCounter := Counter.initial
    meshInstanceCounter := Counter.initial
    anchorCounter := Counter.initial
    cameraCounter := Counter.initial
    lightCounter := Counter.initial
    shaderCounter := Counter.initial
    ambientColor := Color.rgb (1 / 100) (1 / 100) (1 / 100) }

/-- The registration pattern each `GlRender::register_*` method repeats
verbatim: fresh id from the counter, insert, `assert!(old.is_none())`. -/
def registerStep {α : Type} (regs : List (Nat × α)) (counter : Nat) (v : α) :
    Option (Nat × List (Nat × α) × Nat) :=
  let (id, counter') := Counter.next counter
  match insertAssertNat regs id v with
  | none => none
  | some regs' => some (id, regs', counter')

/-- `GlRender::register_material`: fresh id from the counter, insert,
`assert!(old.is_none())`. -/
def registerMaterial (s : GlState) (material : Material) :
    Option (Nat × GlState) :=
  match registerStep s.materials s.materialCounter material with
  | none => none
  | some (materialId, materials', counter') =>
    some (materialId, { s with materials := materials', materialCounter := counter' })

/-- `GlRender::register_mesh`: uploads the vertex data, sets the
`position`/`normal`/`texcoord` attribute layouts, uploads the indices, takes
a fresh id and inserts the mesh data.  Unlike the other registries, the
insertion is NOT followed by an `assert!(old.is_none())` in the source.
Device buffer/array names are immaterial here and taken as 0. -/
def registerMesh (s : GlState) (mesh : Mesh) : Nat × GlState :=
  let vertexBuffer := (VertexBuffer.new 0).setDataF32 mesh.vertexData
  let position := mesh.position
  let vertexBuffer := vertexBuffer.setAttribF32 ("position")
    { elements := position.elements, stride := position.stride, offset := position.offset }
  let vertexBuffer :=
    match mesh.normal with
    | some normal =>
      vertexBuffer.setAttribF32 ("normal")
        { elements := normal.elements, stride := normal.stride, offset := normal.offset }
    | none => vertexBuffer
  let vertexBuffer :=
    match mesh.texcoord.head? with
    | some texcoord =>
      vertexBuffer.setAttribF32 ("texcoord")
        { elements := texcoord.elements, stride := texcoord.stride, offset := texcoord.offset }
    | none => vertexBuffer
  let indexBuffer := (IndexBuffer.new 0).setDataU32 mesh.indices
  let (meshId, counter') := Counter.next s.meshCounter
  let vertexArray := VertexArray.withIndexBuffer 0 vertexBuffer indexBuffer
  let meshData : MeshData :=
    { vertexArray := vertexArray
      positionAttribute := mesh.position
      normalAttribute := mesh.normal
      uvAttribute := none
      elementCount := mesh.indices.length }
  (meshId, { s with meshes := insertNat s.meshes meshId meshData, meshCounter := counter' })

/-- `GlRender::register_texture`: the format conversion and GPU upload are
device-side (the produced `GlTexture2d` is taken as input); fresh id,
insert, `assert!(old.is_none())`. -/
def registerTexture (s : GlState) (glTexture : GlTexture2d) :
    Option (Nat × GlState) :=
  match registerStep s.textures s.textureCounter glTexture with
  | none => none
  | some (textureId, textures', counter') =>
    some (textureId, { s with textures := textures', textureCounter := counter' })

/-- `GlRender::register_mesh_instance`. -/
def registerMeshInstance (s : GlState) (meshInstance : MeshInstance) :
    Option (Nat × GlState) :=
  match registerStep s.meshInstances s.meshInstanceCounter meshInstance with
  | none => none
  | some (id, meshInstances', counter') =>
    some (id, { s with meshInstances := meshInstances', meshInstanceCounter := counter' })

/-- `GlRender::register_anchor`. -/
def registerAnchor (s : GlState) (anchor : Anchor) : Option (Nat × GlState) :=
  match registerStep s.anchors s.anchorCounter anchor with
  | none => none
  | some (anchorId, anchors', counter') =>
    some (anchorId, { s with anchors := anchors', anchorCounter := counter' })

/-- `GlRender::register_camera`. -/
def registerCamera (s : GlState) (camera : Camera) : Option (Nat × GlState) :=
  match registerStep s.cameras s.cameraCounter camera with
  | none => none
  | some (cameraId, cameras', counter') =>
    some (cameraId, { s with cameras := cameras', cameraCounter := counter' })

/-- `GlRender::register_light`. -/
def registerLight (s : GlState) (light : Light) : Option (Nat × GlState) :=
  match registerStep s.lights s.lightCounter light with
  | none => none
  | some (lightId, lights', counter') =>
    some (lightId, { s with lights := lights', lightCounter := counter' })

/-- Registering a sequence of anchors in order (N successive
`register_anchor` calls), collecting the returned ids. -/
def registerAnchorSeq (s : GlState) : List Anchor → Option (List Nat × GlState)
  | [] => some ([], s)
  | anchor :: rest =>
    match registerAnchor s anchor with
    | none => none
    | some (id, s') =>
      match registerAnchorSeq s' rest with
      | none => none
      | some (ids, s'') => some (id :: ids, s'')

/-- The generic registration sequence over any registry/counter pair driven
by `registerStep` (every `register_*` method is an instance). -/
def registerStepSeq {α : Type} (regs : List (Nat × α)) (counter : Nat) :
    List α → Option (List Nat × List (Nat × α) × Nat)
  | [] => some ([], regs, counter)
  | v :: rest =>
    match registerStep regs counter v with
    | none => none
    | some (id, regs', counter') =>
      match registerStepSeq regs' counter' rest with
      | none => none
      | some (ids, regs'', counter'') => some (id :: ids, regs'', counter'')

/-- `GlRender::set_ambient_light`. -/
def setAmbientLight (s : GlState) (color : Color) : GlState :=
  { s with ambientColor := color }

/-! ### `GlRender::build_material` (src/lib/polygon_rs/src/gl/mod.rs).
The generated GLSL is modelled line-for-line; the indentation-only
whitespace of the Rust raw-string templates is not reproduced. -/

/-- The GLSL type string for each property type. -/
def glslTypeStr : PropertyType → String
  | .color => "vec4"
  | .texture2d => "sampler2D"
  | .f32 => "float"
  | .vector3 => "vec3"

/-- The generated property-uniform declarations: one
`uniform <glsl-type> <name>;` line per material property, in order. -/
def uniformDeclarations (properties : List PropertySource) : String :=
  properties.foldl
    (fun acc property =>
      acc ++ "uniform " ++ glslTypeStr property.propertyType ++ " "
        ++ property.name ++ ";\n")
    ""

/-- `BUILT_IN_UNIFORMS`: the fixed block of built-in engine uniforms. -/
def builtInUniforms : String :=
  "uniform mat4 model_transform;\n"
    ++ "uniform mat3 normal_transform;\n"
    ++ "uniform mat4 view_transform;\n"
    ++ "uniform mat3 view_normal_transform;\n"
    ++ "uniform mat4 model_view_transform;\n"
    ++ "uniform mat4 projection_transform;\n"
    ++ "uniform mat4 model_view_projection;\n"
    ++ "\n"
    ++ "uniform vec4 global_ambient;\n"
    ++ "uniform vec4 camera_position;\n"
    ++ "uniform vec4 light_position;\n"
    ++ "uniform vec4 light_position_view;\n"
    ++ "uniform float light_strength;\n"
    ++ "uniform vec4 light_color;\n"
    ++ "uniform int light_type;\n"
    ++ "uniform float light_radius;\n"
    ++ "uniform vec3 light_direction;\n"
    ++ "uniform vec3 light_direction_view;\n"

/-- `DEFAULT_VERT_MAIN`: the default vertex program body used when the
material source supplies none. -/
def defaultVertMain : String :=
  "@position = model_view_projection * vertex_position;\n"
    ++ "\n"
    ++ "@vertex.position = vertex_position;\n"
    ++ "@vertex.normal = vertex_normal;\n"
    ++ "@vertex.uv0 = vertex_uv0;\n"
    ++ "\n"
    ++ "@vertex.world_position = model_transform * vertex_position;\n"
    ++ "@vertex.world_normal = normalize(normal_transform * vertex_normal);\n"
    ++ "\n"
    ++ "@vertex.view_position = model_view_transform * vertex_position;\n"
    ++ "@vertex.view_normal = normalize(view_normal_transform * vertex_normal);\n"

/-- The keyword replacements applied to the vertex program body, in source
order. -/
def replaceVertexKeywords (s : String) : String :=
  ((((((((s.replace ("@position") ("gl_Position")).replace
    ("@vertex.position") ("_vertex_position_")).replace
    ("@vertex.normal") ("_vertex_normal_")).replace
    ("@vertex.uv0") ("_vertex_uv0_")).replace
    ("@vertex.world_position") ("_vertex_world_position_")).replace
    ("@vertex.world_normal") ("_vertex_world_normal_")).replace
    ("@vertex.view_position") ("_vertex_view_position_")).replace
    ("@vertex.view_normal") ("_vertex_view_normal_"))

/-- The keyword replacements applied to the fragment program body, in source
order. -/
def replaceFragmentKeywords (s : String) : String :=
  ((((((((s.replace ("@color") ("_fragment_color_")).replace
    ("@vertex.position") ("_vertex_position_")).replace
    ("@vertex.normal") ("_vertex_normal_")).replace
    ("@vertex.uv0") ("_vertex_uv0_")).replace
    ("@vertex.world_position") ("_vertex_world_position_")).replace
    ("@vertex.world_normal") ("_vertex_world_normal_")).replace
    ("@vertex.view_position") ("_vertex_view_position_")).replace
    ("@vertex.view_normal") ("_vertex_view_normal_"))

/-- The vertex-stage input declarations of the generated vertex shader. -/
def vertexStageIns : String :=
  "in vec4 vertex_position;\n"
    ++ "in vec3 vertex_normal;\n"
    ++ "in vec2 vertex_uv0;\n"

/-- The pass-through output declarations of the generated vertex shader. -/
def vertexStageOuts : String :=
  "out vec4 _vertex_position_;\n"
    ++ "out vec3 _vertex_normal_;\n"
    ++ "out vec2 _vertex_uv0_;\n"
    ++ "out vec4 _vertex_world_position_;\n"
    ++ "out vec3 _vertex_world_normal_;\n"
    ++ "out vec4 _vertex_view_position_;\n"
    ++ "out vec3 _vertex_view_normal_;\n"

/-- The input declarations of the generated fragment shader. -/
def fragmentStageIns : String :=
  "in vec4 _vertex_position_;\n"
    ++ "in vec3 _vertex_normal_;\n"
    ++ "in vec2 _vertex_uv0_;\n"
    ++ "in vec4 _vertex_world_position_;\n"
    ++ "in vec3 _vertex_world_normal_;\n"
    ++ "in vec4 _vertex_view_position_;\n"
    ++ "in vec3 _vertex_view_normal_;\n"

/-- The output declaration of the generated fragment shader. -/
def fragmentStageOut : String :=
  "out vec4 _fragment_color_;\n"

/-- The vertex shader template: version directive, built-in uniforms, the
generated property uniforms, stage inputs/outputs, and the substituted body
wrapped in `main`. -/
def vertexShaderWrap (decls body : String) : String :=
  "#version 150\n\n"
    ++ builtInUniforms ++ "\n"
    ++ decls ++ "\n"
    ++ vertexStageIns ++ "\n"
    ++ vertexStageOuts ++ "\n"
    ++ "void main(void) \x7b\n"
    ++ body
    ++ "\n\x7d\n"

/-- The fragment shader template. -/
def fragmentShaderWrap (decls body : String) : String :=
  "#version 150\n\n"
    ++ builtInUniforms ++ "\n"
    ++ decls ++ "\n"
    ++ fragmentStageIns ++ "\n"
    ++ fragmentStageOut ++ "\n"
    ++ "void main(void) \x7b\n"
    ++ body
    ++ "\n\x7d\n"

/-- The raw vertex program body: the source's vertex program if supplied,
else `DEFAULT_VERT_MAIN` (`unwrap_or(DEFAULT_VERT_MAIN)`). -/
def vertexRawSource (source : MaterialSource) : String :=
  ((source.programs.find? ProgramSource.isVertex).map ProgramSource.source).getD
    defaultVertMain

/-- The raw fragment program body, if the source supplies one
(`ok_or(BuildMaterialError)` in the source makes its absence an error). -/
def fragmentRawSource (source : MaterialSource) : Option String :=
  (source.programs.find? ProgramSource.isFragment).map ProgramSource.source

/-- The complete generated vertex shader source for a material source. -/
def vertexShaderSource (source : MaterialSource) : String :=
  vertexShaderWrap (uniformDeclarations source.properties)
    (replaceVertexKeywords (vertexRawSource source))

/-- The complete generated fragment shader source, given the raw fragment
body. -/
def fragmentShaderSource (source : MaterialSource) (raw : String) : String :=
  fragmentShaderWrap (uniformDeclarations source.properties)
    (replaceFragmentKeywords raw)

/-- The opaque "material build failed" error. -/
inductive BuildMaterialError where
  | buildMaterialError
deriving DecidableEq, Repr

/-- The device-side shader pipeline (`GlShader::new` and `Program::new`,
whose sources are not under src/): an oracle for compiling a shader source
into a shader handle and linking two handles into a `Program`.  Per the
spec, each either succeeds or reports an error that `build_material` maps to
the opaque `BuildMaterialError`. -/
structure Device where
  compileShader : String → ShaderType → Except Unit Nat
  linkProgram : Nat → Nat → Except Unit Program

/-- The property-default loop at the end of `build_material`: every declared
property is set to its type's default value. -/
def materialDefaults (properties : List PropertySource) (material : Material) :
    Material :=
  properties.foldl
    (fun m property =>
      match property.propertyType with
      | .color => m.setColor property.name Color.default
      | .texture2d => m.setTexture property.name GpuTexture.default
      | .f32 => m.setF32 property.name 0
      | .vector3 => m.setVector3 property.name Vector3.default)
    material

/-- `GlRender::build_material`: generate and compile the vertex shader
(defaulting its body), require and compile the fragment shader, link, then
register the program under a fresh id (plain insert, no assert in the
source) and build the `Material` with every property at its default. -/
def buildMaterial (dev : Device) (s : GlState) (source : MaterialSource) :
    Except BuildMaterialError Material × GlState :=
  match dev.compileShader (vertexShaderSource source) .vertex with
  | .error _ => (.error .buildMaterialError, s)
  | .ok vertShader =>
    match fragmentRawSource source with
    | none => (.error .buildMaterialError, s)
    | some raw =>
      match dev.compileShader (fragmentShaderSource source raw) .fragment with
      | .error _ => (.error .buildMaterialError, s)
      | .ok fragShader =>
        match dev.linkProgram vertShader fragShader with
        | .error _ => (.error .buildMaterialError, s)
        | .ok program =>
          let (programId, counter') := Counter.next s.shaderCounter
          let s' :=
            { s with
              programs := insertNat s.programs programId program,
              shaderCounter := counter' }
          (.ok (materialDefaults source.properties (Material.new programId)), s')

/-! ### `GlRender::draw`: the per-frame loop
(src/lib/polygon_rs/src/gl/mod.rs, lines 125-355).

The registries iterated by the frame (`cameras.values()`,
`mesh_instances.values()`, `lights.values()`) are `HashMap`s whose iteration
order is unspecified; the order is therefore passed in explicitly as a value
enumeration, and the theorems quantify over every enumeration that is a
permutation of the registry's values. -/

/-- The uniform value staged for one material property: colors, scalars and
vectors directly; texture properties resolve the GPU texture registry and
fall back to the given default texture (`unwrap_or(&default_texture)`). -/
def materialPropertyValue (textures : List (Nat × GlTexture2d))
    (defaultTexture : GlTexture2d) : MaterialProperty → UniformValue
  | .color c => .f32x4 (.lit c.r c.g c.b c.a)
  | .f32 value => .f32 value
  | .vector3 value => .f32x3 (.lit value.x value.y value.z)
  | .texture t => .texture ((lookupNat textures t).getD defaultTexture)

/-- The `for (name, property) in material.properties()` staging loop. -/
def stageMaterialProperties (textures : List (Nat × GlTexture2d))
    (defaultTexture : GlTexture2d) (b : DrawBuilder) :
    List (String × MaterialProperty) → Option DrawBuilder
  | [] => some b
  | (name, property) :: rest =>
    match b.uniform name (materialPropertyValue textures defaultTexture property) with
    | none => none
    | some b' => stageMaterialProperties textures defaultTexture b' rest

/-- The seven transform uniforms, staged in source order with the row-major
transpose flag on. -/
def stageTransformUniforms (b : DrawBuilder)
    (modelTransform normalTransform viewNormalTransform viewTransform
      modelViewTransform projectionTransform modelViewProjection : Mat) :
    Option DrawBuilder := do
  let b ← b.uniform ("model_transform") (.matrix modelTransform true)
  let b ← b.uniform ("normal_transform") (.matrix normalTransform true)
  let b ← b.uniform ("view_normal_transform") (.matrix viewNormalTransform true)
  let b ← b.uniform ("view_transform") (.matrix viewTransform true)
  let b ← b.uniform ("model_view_transform") (.matrix modelViewTransform true)
  let b ← b.uniform ("projection_transform") (.matrix projectionTransform true)
  b.uniform ("model_view_projection") (.matrix modelViewProjection true)

/-- One iteration of the per-light loop: stage the light's common and
type-specific uniforms (a point light without a registered anchor is a
`panic!`/`expect` failure), then draw. -/
def renderLight (anchors : List (Nat × Anchor)) (viewTransform : Mat)
    (b : DrawBuilder) (light : Light) :
    Option (DrawBuilder × DrawBuilder.DrawCall) := do
  let b ← b.uniform ("light_color")
    (.f32x4 (.lit light.color.r light.color.g light.color.b light.color.a))
  let b ← b.uniform ("light_strength") (.f32 light.strength)
  let b ←
    match light.data with
    | .point radius => do
      let b ← b.uniform ("light_type") (.i32 1)
      let lightAnchor ←
        match light.anchor with
        | some anchorId => lookupNat anchors anchorId
        | none => none
      let b ← b.uniform ("light_position") (.f32x4 (.ofVec lightAnchor.position))
      let lightPositionView := Vec.mulMat lightAnchor.position viewTransform
      let b ← b.uniform ("light_position_view") (.f32x4 (.ofVec lightPositionView))
      b.uniform ("light_radius") (.f32 radius)
    | .directional direction => do
      let b ← b.uniform ("light_type") (.i32 2)
      let b ← b.uniform ("light_direction") (.f32x3 (.ofVec direction))
      let directionView := Vec.mulMat direction viewTransform
      b.uniform ("light_direction_view") (.f32x3 (.ofVec directionView))
  some (b, b.draw)

/-- The `for light in self.lights.values()` loop, issuing one draw per
light; the builder threads through so later lights see earlier lights'
staged uniforms. -/
def renderLights (anchors : List (Nat × Anchor)) (viewTransform : Mat)
    (b : DrawBuilder) : List Light → Option (List DrawBuilder.DrawCall)
  | [] => some []
  | light :: rest => do
    let (b', call) ← renderLight anchors viewTransform b light
    let calls ← renderLights anchors viewTransform b' rest
    some (call :: calls)

/-- The body of the per-mesh-instance loop, for an instance whose anchor was
resolved: set up the draw builder (program, back-face culling, less-than
depth test, name-mapped attributes), stage transform, ambient, camera and
material uniforms, issue the ambient pass (`light_type` 0, no blending),
then relax the depth test to less-or-equal, switch to additive blending and
issue one pass per light. -/
def renderInstance (s : GlState) (cameraAnchor : Anchor) (camera : Camera)
    (anchor : Anchor) (meshInstance : MeshInstance) (lightEnum : List Light) :
    Option (List DrawBuilder.DrawCall) := do
  let modelTransform := anchor.matrixM
  let normalTransform := anchor.normalMatrixM
  let meshData ← lookupNat s.meshes meshInstance.mesh
  let defaultTexture := GlTexture2d.defaultEmpty
  let viewTransform := cameraAnchor.viewMatrixM
  let modelViewTransform := Mat.mul viewTransform modelTransform
  let projectionTransform := camera.projectionMatrixM
  let modelViewProjection := Mat.mul projectionTransform modelViewTransform
  let viewNormalTransform :=
    Mat.transposed
      (Mat.mul (Mat.transposed normalTransform) cameraAnchor.inverseViewMatrixM)
  let material := meshInstance.material
  let program ← lookupNat s.programs material.shader
  let b := DrawBuilder.new meshData.vertexArray .triangles
  let b := ((b.setProgram program).setCull .back).setDepthTest .less
  let b ← b.mapAttribName ("position") ("vertex_position")
  let b ← b.mapAttribName ("normal") ("vertex_normal")
  let b ← b.mapAttribName ("texcoord") ("vertex_uv0")
  let b ← stageTransformUniforms b modelTransform normalTransform
    viewNormalTransform viewTransform modelViewTransform projectionTransform
    modelViewProjection
  let b ← b.uniform ("global_ambient")
    (.f32x4 (.lit s.ambientColor.r s.ambientColor.g s.ambientColor.b s.ambientColor.a))
  let b ← b.uniform ("camera_position") (.f32x4 (.ofVec cameraAnchor.position))
  let b ← stageMaterialProperties s.textures defaultTexture b material.properties
  let b ← b.uniform ("light_type") (.i32 0)
  let ambientCall := b.draw
  let b := (b.setDepthTest .lessThanOrEqual).setBlend .one .one
  let lightCalls ← renderLights s.anchors viewTransform b lightEnum
  some (ambientCall :: lightCalls)

/-- The `for mesh_instance in self.mesh_instances.values()` loop: instances
without an anchor are skipped (`continue`); an instance whose anchor id
misses the registry is an `expect` failure. -/
def renderInstances (s : GlState) (cameraAnchor : Anchor) (camera : Camera)
    (lightEnum : List Light) :
    List MeshInstance → Option (List DrawBuilder.DrawCall)
  | [] => some []
  | meshInstance :: rest =>
    match meshInstance.anchor with
    | none => renderInstances s cameraAnchor camera lightEnum rest
    | some anchorId =>
      match lookupNat s.anchors anchorId with
      | none => none
      | some anchor => do
        let calls ← renderInstance s cameraAnchor camera anchor meshInstance lightEnum
        let more ← renderInstances s cameraAnchor camera lightEnum rest
        some (calls ++ more)

/-- `GlRender::draw`, as the list of device draw calls it issues (clear and
swap elided): take the first camera yielded by the camera registry's
iteration (`cameras.values().next()`), none meaning an empty frame; a camera
without an anchor is `unimplemented!()`, an unresolvable camera anchor an
`expect` failure; then render every mesh instance. -/
def drawFrame (s : GlState) (cameraEnum : List Camera)
    (meshInstanceEnum : List MeshInstance) (lightEnum : List Light) :
    Option (List DrawBuilder.DrawCall) :=
  match cameraEnum.head? with
  | none => some []
  | some camera =>
    match camera.anchor with
    | none => none
    | some anchorId =>
      match lookupNat s.anchors anchorId with
      | none => none
      | some cameraAnchor =>
        renderInstances s cameraAnchor camera lightEnum meshInstanceEnum

/-- A device pipeline on which every compile and link succeeds (the linked
program resolves no uniforms or attributes); used to exhibit build paths
whose outcome does not depend on device failures. -/
def alwaysOkDevice : Device :=
  { compileShader := fun _ _ => .ok 0
    linkProgram := fun _ _ => .ok { programName := 0, uniforms := [], attribs := [] } }

/-! ### Concrete scenes used by witnesses and counterexamples -/

/-- A vertex buffer holding 9 floats with a 3-element `position` attribute. -/
def witVertexBuffer : VertexBuffer :=
  ((VertexBuffer.new 0).setDataF32 (List.replicate 9 0)).setAttribF32 ("position")
    { elements := 3, stride := 0, offset := 0 }

/-- A vertex array over `witVertexBuffer` with a 3-entry index buffer. -/
def witVertexArray : VertexArray :=
  VertexArray.withIndexBuffer 0 witVertexBuffer ((IndexBuffer.new 0).setDataU32 [0, 1, 2])

/-- A program whose uniform table resolves `light_type` (location 5) and
`projection_transform` (location 7) and whose only input is
`vertex_position`. -/
def witProgram : Program :=
  { programName := 0
    uniforms := [("light_type", 5), ("projection_transform", 7)]
    attribs := [("vertex_position", 0)] }

/-- Mesh data for the witness scenes. -/
def witMeshData : MeshData :=
  { vertexArray := witVertexArray
    positionAttribute := { elements := 3, stride := 0, offset := 0 }
    normalAttribute := none
    uvAttribute := none
    elementCount := 3 }

/-- The anchor (id 0) shared by the witness scenes. -/
def witAnchor : Anchor :=
  { matrixM := .base 0, normalMatrixM := .base 1, viewMatrixM := .base 2,
    inverseViewMatrixM := .base 3, position := .base 0 }

/-- A camera bound to anchor 0. -/
def witCamera : Camera := { anchor := some 0, projectionMatrixM := .base 10 }

/-- A second camera bound to anchor 0 with a different projection. -/
def witCameraB : Camera := { anchor := some 0, projectionMatrixM := .base 11 }

/-- A mesh instance bound to anchor 0, mesh 0, shader 0. -/
def witMeshInstance : MeshInstance :=
  { anchor := some 0, mesh := 0, material := Material.new 0 }

/-- A directional light (no anchor required). -/
def witLightDir : Light :=
  { anchor := none, color := ⟨1, 1, 1, 1⟩, strength := 1,
    data := .directional (.base 5) }

/-- A point light bound to anchor 0. -/
def witLightPoint : Light :=
  { anchor := some 0, color := ⟨1, 0, 0, 1⟩, strength := 2, data := .point 4 }

/-- A renderer state with one camera, one mesh instance and two lights. -/
def witState : GlState :=
  { GlState.new with
    anchors := [(0, witAnchor)]
    cameras := [(0, witCamera)]
    meshes := [(0, witMeshData)]
    meshInstances := [(0, witMeshInstance)]
    programs := [(0, witProgram)]
    lights := [(0, witLightDir), (1, witLightPoint)] }

/-- A scene (anchor, mesh, program, mesh instance, no cameras yet) from
which the two-camera counterexample registers its cameras. -/
def cexCameraBase : GlState :=
  { GlState.new with
    anchors := [(0, witAnchor)]
    meshes := [(0, witMeshData)]
    meshInstances := [(0, witMeshInstance)]
    programs := [(0, witProgram)]
    anchorCounter := 1
    meshCounter := 1
    meshInstanceCounter := 1
    shaderCounter := 1 }

/-- `cexCameraBase` after registering `witCamera` (id 0). -/
def cexCameraS1 : GlState :=
  { cexCameraBase with cameras := [(0, witCamera)], cameraCounter := 1 }

/-- `cexCameraS1` after registering `witCameraB` (id 1). -/
def cexCameraS2 : GlState :=
  { cexCameraBase with
    cameras := [(0, witCamera), (1, witCameraB)], cameraCounter := 2 }

/-- A program resolving only the uniform `albedo` (location 0). -/
def witTexProgram : Program :=
  { programName := 0, uniforms := [("albedo", 0)], attribs := [] }

/-- A builder over `witVertexArray` with `witTexProgram` set. -/
def witTexBuilder : DrawBuilder :=
  (DrawBuilder.new witVertexArray .triangles).setProgram witTexProgram

/-- A material source declaring `surface_color: Color` and
`shininess: f32`, with a fragment program and no vertex program. -/
def witMaterialSource : MaterialSource :=
  { properties :=
      [⟨"surface_color", .color⟩, ⟨"shininess", .f32⟩]
    programs := [⟨.fragment, "@color = surface_color;"⟩] }

/-- The material `buildMaterial alwaysOkDevice GlState.new witMaterialSource`
produces. -/
def witBuiltMaterial : Material :=
  { shader := 0
    properties :=
      [("surface_color", .color Color.default), ("shininess", .f32 0)] }

/-- The state `buildMaterial alwaysOkDevice GlState.new witMaterialSource`
leaves behind. -/
def witBuiltState : GlState :=
  { GlState.new with
    programs := [(0, { programName := 0, uniforms := [], attribs := [] })]
    shaderCounter := 1 }

/-- A material source with no programs at all (in particular, no fragment
program). -/
def witNoFragSource : MaterialSource := { properties := [], programs := [] }

/-- A device pipeline on which every compile fails. -/
def failDevice : Device :=
  { compileShader := fun _ _ => .error ()
    linkProgram := fun _ _ => .error () }

/-- A renderer state whose mesh registry already holds id 0 while the mesh
counter still reads 0: the id collision scenario for `register_mesh`. -/
def cexMeshState : GlState := { GlState.new with meshes := [(0, witMeshData)] }

/-- A mesh whose registration will collide with the entry already stored
under id 0 in `cexMeshState`. -/
def cexMesh : Mesh :=
  { vertexData := List.replicate 6 0
    position := { elements := 3, stride := 0, offset := 0 }
    normal := none
    texcoord := []
    indices := [0, 1] }

/-! Helper lemmas shared by the claim theorems. -/

theorem lookupNat_insertNat_self {α : Type} (m : List (Nat × α)) (k : Nat) (v : α) :
    lookupNat (insertNat m k v) k = some v := by
  induction m with
  | nil => simp [insertNat, lookupNat]
  | cons hd tl ih =>
    obtain ⟨k', v'⟩ := hd
    by_cases h : k' = k
    · simp [insertNat, h, lookupNat]
    · simp [insertNat, h, lookupNat, ih]

theorem lookupNat_none_of_keys_lt {α : Type} (m : List (Nat × α)) (k : Nat)
    (h : ∀ k' ∈ m.map Prod.fst, k' < k) : lookupNat m k = none := by
  induction m with
  | nil => rfl
  | cons hd tl ih =>
    obtain ⟨k', v'⟩ := hd
    have hk' : k' < k := h k' (by simp)
    have : k' ≠ k := Nat.ne_of_lt hk'
    simp only [lookupNat, if_neg this]
    exact ih (fun a ha => h a (by simp [ha]))

theorem keys_insertNat_subset {α : Type} (m : List (Nat × α)) (k : Nat) (v : α) :
    ∀ k' ∈ (insertNat m k v).map Prod.fst, k' ∈ m.map Prod.fst ∨ k' = k := by
  induction m with
  | nil => simp [insertNat]
  | cons hd tl ih =>
    obtain ⟨k₀, v₀⟩ := hd
    intro k' hk'
    by_cases h : k₀ = k
    · simp only [insertNat, if_pos h] at hk'
      rcases (by simpa using hk') with h1 | h1
      · right; exact h1
      · left; simp [h1]
    · simp only [insertNat, if_neg h] at hk'
      rcases (by simpa using hk') with h1 | h1
      · left; simp [h1]
      · rcases ih k' (by simpa using h1) with h2 | h2
        · left; simp [h2]
        · right; exact h2

namespace DrawBuilder

theorem mapAttribName_of_program (b : DrawBuilder) (p : Program)
    (h : b.program = some p) (x y : String) : b.mapAttribName x y = some b := by
  cases hy : p.getAttrib y with
  | none => simp [mapAttribName, h, hy]
  | some attrib =>
    cases hl : lookupStr b.vertexArray.vertexBuffer.attribs x with
    | none => simp [mapAttribName, h, hy, hl]
    | some layout => simp [mapAttribName, h, hy, hl]

theorem uniform_shape (b : DrawBuilder) (p : Program) (h : b.program = some p)
    (n : String) (v : UniformValue) :
    ∃ u, b.uniform n v = some { b with uniforms := u } := by
  cases hloc : p.getUniformLocation n with
  | none =>
    refine ⟨b.uniforms, ?_⟩
    simp only [uniform, h, hloc]
    rw [← h]
  | some location =>
    exact ⟨insertNat b.uniforms location v, by simp [uniform, h, hloc]⟩

theorem uniform_found (b : DrawBuilder) (p : Program) (h : b.program = some p)
    (n : String) (loc : Nat) (hloc : p.getUniformLocation n = some loc)
    (v : UniformValue) :
    b.uniform n v = some { b with uniforms := insertNat b.uniforms loc v } := by
  simp [uniform, h, hloc]

end DrawBuilder

/-! Claim theorems and their witnesses. -/

/-- C2: for every vertex buffer with stored length `L` and every
`set_attrib_f32` call with layout `{elements = e, offset = o, stride = s}`
where `o ≤ L` and `e > 0`, the computed element count afterwards equals
`(L - o) / e + s` with `/` truncating integer division (characterized by the
two bounds), covering both the exact-division and the truncating case. -/
theorem setAttribF32_element_count (vb : VertexBuffer) (attrib : String)
    (layout : AttribLayout) (ho : layout.offset ≤ vb.len)
    (he : 0 < layout.elements) :
    (vb.setAttribF32 attrib layout).elementLen
        = (vb.len - layout.offset) / layout.elements + layout.stride
      ∧ (vb.len - layout.offset) / layout.elements * layout.elements
          ≤ vb.len - layout.offset
      ∧ vb.len - layout.offset
          < ((vb.len - layout.offset) / layout.elements + 1) * layout.elements := by
  refine ⟨rfl, Nat.div_mul_le_self _ _, ?_⟩
  exact (Nat.div_lt_iff_lt_mul he).mp (Nat.lt_succ_self _)

/-- Witness for C2 at an exact-division case (`L = 9, o = 0, e = 3, s = 0`,
count 3) and a truncating case (`L = 10, o = 2, e = 3, s = 1`,
`(10-2)/3 + 1 = 3`). -/
theorem setAttribF32_element_count_witness :
    ((((VertexBuffer.new 0).setDataF32 (List.replicate 9 0)).setAttribF32
        ("position") ⟨3, 0, 0⟩).elementLen = 3)
    ∧ ((((VertexBuffer.new 0).setDataF32 (List.replicate 10 0)).setAttribF32
        ("p") ⟨3, 1, 2⟩).elementLen = 3) := by
  have h1 := (setAttribF32_element_count
    ((VertexBuffer.new 0).setDataF32 (List.replicate 9 0)) ("position")
    ⟨3, 0, 0⟩ (by decide) (by decide)).1
  have h2 := (setAttribF32_element_count
    ((VertexBuffer.new 0).setDataF32 (List.replicate 10 0)) ("p")
    ⟨3, 1, 2⟩ (by decide) (by decide)).1
  exact ⟨h1.trans (by decide), h2.trans (by decide)⟩

/-- C5: with a program set, `uniform()` on a name with no location in the
program's uniform table, and `map_attrib_name()` when the program has no
such input or the buffer no such attribute, return normally and leave the
builder (uniform map and every configuration field) unchanged. -/
theorem builder_missing_name_noop (b : DrawBuilder) (p : Program)
    (name bufferAttrib programAttrib : String) (v : UniformValue)
    (hprog : b.program = some p) :
    (p.getUniformLocation name = none → b.uniform name v = some b)
    ∧ (p.getAttrib programAttrib = none →
        b.mapAttribName bufferAttrib programAttrib = some b)
    ∧ (lookupStr b.vertexArray.vertexBuffer.attribs bufferAttrib = none →
        b.mapAttribName bufferAttrib programAttrib = some b) := by
  refine ⟨?_, ?_, ?_⟩
  · intro h
    simp [DrawBuilder.uniform, hprog, h]
  · intro h
    simp [DrawBuilder.mapAttribName, hprog, h]
  · intro h
    cases hy : p.getAttrib programAttrib with
    | none => simp [DrawBuilder.mapAttribName, hprog, hy]
    | some a => simp [DrawBuilder.mapAttribName, hprog, hy, h]

/-- Witness for C5 on a concrete builder whose program resolves neither the
uniform name `nope` nor the input `nope2`, and whose buffer lacks the
attribute `missing`. -/
theorem builder_missing_name_noop_witness :
    (((DrawBuilder.new witVertexArray .triangles).setProgram witProgram).uniform
        ("nope") (.f32 0)
      = some ((DrawBuilder.new witVertexArray .triangles).setProgram witProgram))
    ∧ (((DrawBuilder.new witVertexArray .triangles).setProgram witProgram).mapAttribName
        ("position") ("nope2")
      = some ((DrawBuilder.new witVertexArray .triangles).setProgram witProgram))
    ∧ (((DrawBuilder.new witVertexArray .triangles).setProgram witProgram).mapAttribName
        ("missing") ("vertex_position")
      = some ((DrawBuilder.new witVertexArray .triangles).setProgram witProgram)) := by
  have h := builder_missing_name_noop
    ((DrawBuilder.new witVertexArray .triangles).setProgram witProgram) witProgram
    ("nope") ("missing") ("nope2") (.f32 0) rfl
  have h' := builder_missing_name_noop
    ((DrawBuilder.new witVertexArray .triangles).setProgram witProgram) witProgram
    ("nope") ("position") ("nope2") (.f32 0) rfl
  refine ⟨h.1 (by decide), h'.2.1 (by decide), ?_⟩
  have h'' := builder_missing_name_noop
    ((DrawBuilder.new witVertexArray .triangles).setProgram witProgram) witProgram
    ("nope") ("missing") ("vertex_position") (.f32 0) rfl
  exact h''.2.2 (by decide)

/-- C6: `map_attrib_location()` with a buffer attribute name absent from the
vertex array's vertex buffer is fatal for every location argument; with no
program set, `uniform()` and `map_attrib_name()` are fatal for every
argument. -/
theorem builder_fatal_misuse (b : DrawBuilder)
    (bufferAttrib programAttrib name : String) (loc : Nat) (v : UniformValue) :
    (lookupStr b.vertexArray.vertexBuffer.attribs bufferAttrib = none →
      b.mapAttribLocation bufferAttrib loc = none)
    ∧ (b.program = none → b.uniform name v = none)
    ∧ (b.program = none → b.mapAttribName bufferAttrib programAttrib = none) := by
  refine ⟨?_, ?_, ?_⟩
  · intro h
    simp [DrawBuilder.mapAttribLocation, h]
  · intro h
    simp [DrawBuilder.uniform, h]
  · intro h
    simp [DrawBuilder.mapAttribName, h]

/-- Witness for C6 on a concrete builder: a missing attribute name is fatal
under `map_attrib_location`, and a builder without a program is fatal under
`uniform` and `map_attrib_name`. -/
theorem builder_fatal_misuse_witness :
    ((DrawBuilder.new witVertexArray .triangles).mapAttribLocation ("missing") 3
      = none)
    ∧ ((DrawBuilder.new witVertexArray .triangles).uniform ("light_type") (.i32 0)
      = none)
    ∧ ((DrawBuilder.new witVertexArray .triangles).mapAttribName
        ("position") ("vertex_position") = none) := by
  have h := builder_fatal_misuse (DrawBuilder.new witVertexArray .triangles)
    ("missing") ("vertex_position") ("light_type") 3 (.i32 0)
  have h' := builder_fatal_misuse (DrawBuilder.new witVertexArray .triangles)
    ("position") ("vertex_position") ("light_type") 3 (.i32 0)
  exact ⟨h.1 (by decide), h.2.1 rfl, h'.2.2 rfl⟩

/-- C3: for a material source whose property list is exactly
`{surface_color: Color, shininess: f32}`, the generated property-uniform
block is exactly the two declarations `uniform vec4 surface_color;` and
`uniform float shininess;`, both generated shader sources contain that
block, and a successful build returns a material whose two properties are
initialized to the type defaults (the default `Color` and `0.0`), not to any
value from the source. -/
theorem build_material_two_property_uniforms (dev : Device) (s : GlState)
    (source : MaterialSource) (m : Material) (s' : GlState)
    (hprops : source.properties =
      [⟨"surface_color", .color⟩, ⟨"shininess", .f32⟩])
    (hok : buildMaterial dev s source = (.ok m, s')) :
    uniformDeclarations source.properties
        = "uniform vec4 surface_color;\n" ++ "uniform float shininess;\n"
    ∧ (∃ pre post, vertexShaderSource source
        = pre ++ uniformDeclarations source.properties ++ post)
    ∧ (∃ raw, fragmentRawSource source = some raw
        ∧ ∃ pre post, fragmentShaderSource source raw
            = pre ++ uniformDeclarations source.properties ++ post)
    ∧ m.properties
        = [("surface_color", .color Color.default), ("shininess", .f32 0)] := by
  unfold buildMaterial at hok
  cases hv : dev.compileShader (vertexShaderSource source) ShaderType.vertex with
  | error e =>
    simp only [hv] at hok
    simp at hok
  | ok vertShader =>
    simp only [hv] at hok
    cases hf : fragmentRawSource source with
    | none =>
      simp only [hf] at hok
      simp at hok
    | some raw =>
      simp only [hf] at hok
      cases hc : dev.compileShader (fragmentShaderSource source raw) ShaderType.fragment with
      | error e =>
        simp only [hc] at hok
        simp at hok
      | ok fragShader =>
        simp only [hc] at hok
        cases hl : dev.linkProgram vertShader fragShader with
        | error e =>
          simp only [hl] at hok
          simp at hok
        | ok program =>
          simp only [hl, Counter.next, Prod.mk.injEq, Except.ok.injEq] at hok
          have hm : m = materialDefaults source.properties (Material.new s.shaderCounter) :=
            hok.1.symm
          refine ⟨by rw [hprops]; rfl, ?_, ?_, ?_⟩
          · exact ⟨"#version 150\n\n" ++ builtInUniforms ++ "\n",
              "\n" ++ vertexStageIns ++ "\n" ++ vertexStageOuts ++ "\n"
                ++ "void main(void) \x7b\n"
                ++ replaceVertexKeywords (vertexRawSource source) ++ "\n\x7d\n",
              by simp [vertexShaderSource, vertexShaderWrap, String.append_assoc]⟩
          · refine ⟨raw, rfl, "#version 150\n\n" ++ builtInUniforms ++ "\n",
              "\n" ++ fragmentStageIns ++ "\n" ++ fragmentStageOut ++ "\n"
                ++ "void main(void) \x7b\n"
                ++ replaceFragmentKeywords raw ++ "\n\x7d\n", ?_⟩
            simp [fragmentShaderSource, fragmentShaderWrap, String.append_assoc]
          · rw [hm, hprops]
            rfl

/-- Witness for C3: the concrete source with exactly those two properties
builds successfully on the always-succeeding device into the expected
material. -/
theorem build_material_two_property_uniforms_witness :
    buildMaterial alwaysOkDevice GlState.new witMaterialSource
        = (.ok witBuiltMaterial, witBuiltState)
    ∧ uniformDeclarations witMaterialSource.properties
        = "uniform vec4 surface_color;\n" ++ "uniform float shininess;\n"
    ∧ witBuiltMaterial.properties
        = [("surface_color", .color Color.default), ("shininess", .f32 0)] := by
  have hok : buildMaterial alwaysOkDevice GlState.new witMaterialSource
      = (.ok witBuiltMaterial, witBuiltState) := by rfl
  have h := build_material_two_property_uniforms alwaysOkDevice GlState.new
    witMaterialSource witBuiltMaterial witBuiltState rfl hok
  exact ⟨hok, h.1, h.2.2.2⟩

/-- C7: `build_material` returns the build error whenever the source has no
fragment program (regardless of the device and the rest of the source);
absence of a vertex program is not an error: the fixed default vertex body
is used in its place, and with a fragment program present the build
succeeds on a device that accepts the sources. -/
theorem build_material_fragment_mandatory :
    (∀ (dev : Device) (s : GlState) (source : MaterialSource),
      fragmentRawSource source = none →
      (buildMaterial dev s source).1 = .error .buildMaterialError)
    ∧ (∀ source : MaterialSource,
        source.programs.find? ProgramSource.isVertex = none →
        vertexRawSource source = defaultVertMain)
    ∧ (∀ (s : GlState) (source : MaterialSource) (raw : String),
        source.programs.find? ProgramSource.isVertex = none →
        fragmentRawSource source = some raw →
        (buildMaterial alwaysOkDevice s source).1
          = .ok (materialDefaults source.properties (Material.new s.shaderCounter))) := by
  refine ⟨?_, ?_, ?_⟩
  · intro dev s source h
    unfold buildMaterial
    cases hv : dev.compileShader (vertexShaderSource source) ShaderType.vertex with
    | error e => simp only [hv]
    | ok vertShader => simp only [hv, h]
  · intro source h
    simp [vertexRawSource, h]
  · intro s source raw hv hf
    simp [buildMaterial, alwaysOkDevice, hf, Counter.next]

/-- Witness for C7: a source with no programs at all errors; the two-property
source (fragment only, no vertex program) defaults its vertex body and
builds successfully. -/
theorem build_material_fragment_mandatory_witness :
    (buildMaterial alwaysOkDevice GlState.new witNoFragSource).1
        = .error .buildMaterialError
    ∧ vertexRawSource witMaterialSource = defaultVertMain
    ∧ (buildMaterial alwaysOkDevice GlState.new witMaterialSource).1
        = .ok (materialDefaults witMaterialSource.properties (Material.new 0)) := by
  refine ⟨build_material_fragment_mandatory.1 alwaysOkDevice GlState.new
      witNoFragSource rfl,
    build_material_fragment_mandatory.2.1 witMaterialSource rfl, ?_⟩
  exact build_material_fragment_mandatory.2.2 GlState.new witMaterialSource
    ("@color = surface_color;") rfl rfl

/-- C10: whenever `build_material` returns an error (vertex compile failure,
missing fragment source, fragment compile failure or link failure), the
renderer state is unchanged: no program registry entry is added and the
shader id counter is not advanced, so any later build behaves exactly as if
the failed attempt had never happened. -/
theorem build_material_error_state_unchanged (dev : Device) (s : GlState)
    (source : MaterialSource) (e : BuildMaterialError)
    (herr : (buildMaterial dev s source).1 = .error e) :
    (buildMaterial dev s source).2 = s
    ∧ ∀ (dev₂ : Device) (source₂ : MaterialSource),
        buildMaterial dev₂ (buildMaterial dev s source).2 source₂
          = buildMaterial dev₂ s source₂ := by
  have hst : (buildMaterial dev s source).2 = s := by
    unfold buildMaterial at herr ⊢
    cases hv : dev.compileShader (vertexShaderSource source) ShaderType.vertex with
    | error e₂ => simp only [hv]
    | ok vertShader =>
      simp only [hv] at herr ⊢
      cases hf : fragmentRawSource source with
      | none => simp only [hf]
      | some raw =>
        simp only [hf] at herr ⊢
        cases hc : dev.compileShader (fragmentShaderSource source raw) ShaderType.fragment with
        | error e₂ => simp only [hc]
        | ok fragShader =>
          simp only [hc] at herr ⊢
          cases hl : dev.linkProgram vertShader fragShader with
          | error e₂ => simp only [hl]
          | ok program =>
            simp only [hl] at herr
            simp at herr
  exact ⟨hst, fun dev₂ source₂ => by rw [hst]⟩

/-- Witness for C10: on a device whose compiles fail, building the concrete
two-property source errors and leaves the fresh renderer state intact. -/
theorem build_material_error_state_unchanged_witness :
    (buildMaterial failDevice GlState.new witMaterialSource).2 = GlState.new
    ∧ (buildMaterial failDevice GlState.new witMaterialSource).1
        = .error .buildMaterialError := by
  have h := build_material_error_state_unchanged failDevice GlState.new
    witMaterialSource .buildMaterialError rfl
  exact ⟨h.1, rfl⟩

theorem registerStep_fresh {α : Type} (regs : List (Nat × α)) (counter : Nat)
    (v : α) (hinv : ∀ k ∈ regs.map Prod.fst, k < counter) :
    registerStep regs counter v = some (counter, insertNat regs counter v, counter + 1) := by
  have h := lookupNat_none_of_keys_lt regs counter hinv
  simp [registerStep, Counter.next, insertAssertNat, h]

theorem registerStepSeq_range {α : Type} (vs : List α) (regs : List (Nat × α))
    (counter : Nat) (hinv : ∀ k ∈ regs.map Prod.fst, k < counter) :
    ∃ regs', registerStepSeq regs counter vs
        = some (List.range' counter vs.length, regs', counter + vs.length)
      ∧ ∀ k ∈ regs'.map Prod.fst, k < counter + vs.length := by
  induction vs generalizing regs counter with
  | nil => exact ⟨regs, by simp [registerStepSeq], by simpa using hinv⟩
  | cons v rest ih =>
    have hstep := registerStep_fresh regs counter v hinv
    have hinv' : ∀ k ∈ (insertNat regs counter v).map Prod.fst, k < counter + 1 := by
      intro k hk
      rcases keys_insertNat_subset regs counter v k hk with h | h
      · exact Nat.lt_succ_of_lt (hinv k h)
      · omega
    obtain ⟨regs', hseq, hinv''⟩ := ih (insertNat regs counter v) (counter + 1) hinv'
    refine ⟨regs', ?_, ?_⟩
    · simp only [registerStepSeq, hstep, hseq, List.length_cons, List.range'_succ]
      have : counter + 1 + rest.length = counter + (rest.length + 1) := by omega
      rw [this]
    · intro k hk
      have := hinv'' k hk
      simp only [List.length_cons]
      omega

/-- C4 (amended): ids issued by successive registrations through the shared
registration pattern are the counter's consecutive values — pairwise
distinct, strictly increasing in registration order, and never equal to an
id already present; the six asserting registries (materials, textures, mesh
instances, anchors, cameras, lights) make insertion under a present id
fatal, while `register_mesh` (and the program insertion in
`build_material`) inserts without the assertion. -/
theorem register_ids_fresh_and_increasing :
    (∀ (α : Type) (vs : List α) (regs : List (Nat × α)) (counter : Nat),
      (∀ k ∈ regs.map Prod.fst, k < counter) →
      ∃ regs', registerStepSeq regs counter vs
          = some (List.range' counter vs.length, regs', counter + vs.length)
        ∧ (List.range' counter vs.length).Pairwise (· < ·)
        ∧ ∀ id ∈ List.range' counter vs.length, id ∉ regs.map Prod.fst)
    ∧ (∀ (s : GlState) (anchors : List Anchor),
        (∀ k ∈ s.anchors.map Prod.fst, k < s.anchorCounter) →
        ∃ s', registerAnchorSeq s anchors
            = some (List.range' s.anchorCounter anchors.length, s')
          ∧ (List.range' s.anchorCounter anchors.length).Pairwise (· < ·))
    ∧ (∀ (α : Type) (m : List (Nat × α)) (k : Nat) (v w : α),
        lookupNat m k = some w → insertAssertNat m k v = none)
    ∧ (∀ (s : GlState) (mesh : Mesh),
        (registerMesh s mesh).1 = s.meshCounter
        ∧ (registerMesh s mesh).2.meshCounter = s.meshCounter + 1) := by
  refine ⟨?_, ?_, ?_, ?_⟩
  · intro α vs regs counter hinv
    obtain ⟨regs', hseq, _⟩ := registerStepSeq_range vs regs counter hinv
    refine ⟨regs', hseq, List.pairwise_lt_range' _ _, ?_⟩
    intro id hid hmem
    have h1 := hinv id hmem
    have h2 : counter ≤ id := by
      have := List.mem_range'_1.mp hid
      omega
    omega
  · intro s anchors hinv
    -- `registerAnchorSeq` is the anchors instance of `registerStepSeq`.
    suffices h : ∀ (anchors : List Anchor) (s : GlState),
        (∀ k ∈ s.anchors.map Prod.fst, k < s.anchorCounter) →
        ∃ s', registerAnchorSeq s anchors
            = some (List.range' s.anchorCounter anchors.length, s') by
      obtain ⟨s', hs⟩ := h anchors s hinv
      exact ⟨s', hs, List.pairwise_lt_range' _ _⟩
    intro anchors
    induction anchors with
    | nil =>
      intro s hinv'
      exact ⟨s, by simp [registerAnchorSeq]⟩
    | cons a rest ih =>
      intro s hinv'
      have hstep := registerStep_fresh s.anchors s.anchorCounter a hinv'
      have hinv'' : ∀ k ∈ (insertNat s.anchors s.anchorCounter a).map Prod.fst,
          k < s.anchorCounter + 1 := by
        intro k hk
        rcases keys_insertNat_subset s.anchors s.anchorCounter a k hk with h | h
        · exact Nat.lt_succ_of_lt (hinv' k h)
        · omega
      obtain ⟨s', hs'⟩ := ih
        { s with anchors := insertNat s.anchors s.anchorCounter a,
                 anchorCounter := s.anchorCounter + 1 } hinv''
      refine ⟨s', ?_⟩
      simp only [registerAnchorSeq, registerAnchor, hstep, List.length_cons,
        List.range'_succ]
      simp only [hs']
  · intro α m k v w h
    simp [insertAssertNat, h]
  · intro s mesh
    exact ⟨rfl, rfl⟩

/-- Counterexample for C4: the claim's fatality clause fails for the meshes
registry.  In a state whose mesh registry already holds id 0 while the mesh
counter reads 0, `register_mesh` returns normally with id 0 and silently
replaces the stored entry — no assertion failure occurs. -/
theorem register_mesh_collision_not_fatal :
    (registerMesh cexMeshState cexMesh).1 = 0
    ∧ lookupNat cexMeshState.meshes 0 = some witMeshData
    ∧ lookupNat ((registerMesh cexMeshState cexMesh).2).meshes 0 ≠ some witMeshData
    ∧ ((registerMesh cexMeshState cexMesh).2).meshes.length = 1 := by
  refine ⟨rfl, rfl, ?_, rfl⟩
  decide

/-- Witness for the amended C4: three successive anchor registrations from
the fresh renderer state yield ids 0, 1, 2, and an insertion colliding with
a present id is fatal. -/
theorem register_ids_fresh_and_increasing_witness :
    (∃ s', registerAnchorSeq GlState.new [witAnchor, witAnchor, witAnchor]
      = some ([0, 1, 2], s'))
    ∧ insertAssertNat [(0, witAnchor)] 0 witAnchor = none := by
  obtain ⟨s', hs, _⟩ := register_ids_fresh_and_increasing.2.1 GlState.new
    [witAnchor, witAnchor, witAnchor] (by simp [GlState.new])
  refine ⟨⟨s', ?_⟩, ?_⟩
  · simpa using hs
  · exact register_ids_fresh_and_increasing.2.2.1 Anchor [(0, witAnchor)] 0
      witAnchor witAnchor rfl

/-- C8 (amended): each frame renders at most one camera — the first camera
yielded by the camera registry's (unspecified) iteration order, which is
always one of the registered cameras; every other camera is ignored, in
that the frame's output depends only on that first yielded camera; and when
exactly one camera is registered, the rendered camera is that one. -/
theorem draw_renders_first_yielded_camera (s : GlState)
    (cameraEnum e₂ : List Camera) (meshInstanceEnum : List MeshInstance)
    (lightEnum : List Light) (camera : Camera)
    (hperm : cameraEnum.Perm (s.cameras.map Prod.snd))
    (hhead : cameraEnum.head? = some camera) :
    camera ∈ s.cameras.map Prod.snd
    ∧ (e₂.head? = some camera →
        drawFrame s e₂ meshInstanceEnum lightEnum
          = drawFrame s cameraEnum meshInstanceEnum lightEnum)
    ∧ (∀ c, s.cameras.map Prod.snd = [c] → camera = c) := by
  refine ⟨?_, ?_, ?_⟩
  · exact hperm.mem_iff.mp (List.mem_of_mem_head? hhead)
  · intro h₂
    unfold drawFrame
    rw [hhead, h₂]
  · intro c hc
    rw [hc] at hperm
    have := List.perm_singleton.mp hperm
    rw [this] at hhead
    simpa using hhead.symm

/-- Counterexample for C8: with cameras registered in the order `witCamera`
(id 0) then `witCameraB` (id 1), the enumeration `[witCameraB, witCamera]`
is a permutation of the registered cameras — a legal `HashMap` iteration
order — yet the frame rendered from it carries the second registered
camera's projection matrix, not the first registered camera's, and differs
from the frame the other enumeration produces.  So "the camera rendered is
the first registered camera" does not hold of the code. -/
theorem draw_first_registered_camera_counterexample :
    registerCamera cexCameraBase witCamera = some (0, cexCameraS1)
    ∧ registerCamera cexCameraS1 witCameraB = some (1, cexCameraS2)
    ∧ List.Perm [witCameraB, witCamera] (cexCameraS2.cameras.map Prod.snd)
    ∧ (drawFrame cexCameraS2 [witCameraB, witCamera] [witMeshInstance] []).map
        (fun calls => calls.map (fun c => lookupNat c.uniforms 7))
      = some [some (.matrix witCameraB.projectionMatrixM true)]
    ∧ witCameraB.projectionMatrixM ≠ witCamera.projectionMatrixM
    ∧ drawFrame cexCameraS2 [witCameraB, witCamera] [witMeshInstance] []
        ≠ drawFrame cexCameraS2 [witCamera, witCameraB] [witMeshInstance] [] := by
  refine ⟨rfl, rfl, List.Perm.swap witCamera witCameraB [], rfl, ?_, ?_⟩
  · decide
  · decide

/-- Totality and shape preservation of the material-property staging loop:
with a program set it never fails, and it only changes the staged uniform
map (shared helper for the frame-loop theorems). -/
theorem stageMaterialProperties_total (textures : List (Nat × GlTexture2d))
    (defaultTexture : GlTexture2d) (props : List (String × MaterialProperty)) :
    ∀ (b : DrawBuilder) (p : Program), b.program = some p →
    ∃ b', stageMaterialProperties textures defaultTexture b props = some b'
      ∧ b' = { b with uniforms := b'.uniforms } := by
  induction props with
  | nil =>
    intro b p h
    exact ⟨b, rfl, rfl⟩
  | cons hd tl ih =>
    intro b p h
    obtain ⟨name, property⟩ := hd
    obtain ⟨u, hu⟩ := DrawBuilder.uniform_shape b p h name
      (materialPropertyValue textures defaultTexture property)
    obtain ⟨b', hb', hshape⟩ := ih { b with uniforms := u } p h
    exact ⟨b', by simp [stageMaterialProperties, hu, hb'], hshape⟩

/-- C9: a texture-typed material property whose GPU texture id misses the
texture registry does not fail the draw: the staged uniform value is the
empty default texture, and the staging loop never fails while a program is
set. -/
theorem texture_missing_falls_back (textures : List (Nat × GlTexture2d))
    (b : DrawBuilder) (p : Program)
    (props : List (String × MaterialProperty)) (name : String) (t : GpuTexture)
    (hprog : b.program = some p) :
    (∃ b', stageMaterialProperties textures GlTexture2d.defaultEmpty b props = some b')
    ∧ (lookupNat textures t = none →
        materialPropertyValue textures GlTexture2d.defaultEmpty (.texture t)
            = .texture GlTexture2d.defaultEmpty
        ∧ stageMaterialProperties textures GlTexture2d.defaultEmpty b
            [(name, .texture t)]
          = b.uniform name (.texture GlTexture2d.defaultEmpty)) := by
  refine ⟨?_, ?_⟩
  · obtain ⟨b', hb', _⟩ := stageMaterialProperties_total textures
      GlTexture2d.defaultEmpty props b p hprog
    exact ⟨b', hb'⟩
  · intro h
    refine ⟨by simp [materialPropertyValue, h], ?_⟩
    simp only [stageMaterialProperties, materialPropertyValue, h, Option.getD_none]
    cases hu : b.uniform name (.texture GlTexture2d.defaultEmpty) with
    | none => rfl
    | some b' => simp [stageMaterialProperties]

/-- Witness for C8 (amended): for the two-camera state, the head camera of
the enumeration is registered, and the frame equals the one rendered from
any enumeration with the same head. -/
theorem draw_renders_first_yielded_camera_witness :
    witCameraB ∈ cexCameraS2.cameras.map Prod.snd
    ∧ drawFrame cexCameraS2 [witCameraB] [witMeshInstance] []
        = drawFrame cexCameraS2 [witCameraB, witCamera] [witMeshInstance] [] := by
  have h := draw_renders_first_yielded_camera cexCameraS2 [witCameraB, witCamera]
    [witCameraB] [witMeshInstance] [] witCameraB
    (List.Perm.swap witCamera witCameraB []) rfl
  exact ⟨h.1, h.2.1 rfl⟩

/-- Witness for C9: staging a texture property whose id 5 is absent from an
empty texture registry binds the empty default texture and does not fail. -/
theorem texture_missing_falls_back_witness :
    stageMaterialProperties [] GlTexture2d.defaultEmpty witTexBuilder
        [("albedo", .texture 5)]
      = witTexBuilder.uniform ("albedo") (.texture GlTexture2d.defaultEmpty)
    ∧ materialPropertyValue [] GlTexture2d.defaultEmpty (.texture 5)
        = .texture GlTexture2d.defaultEmpty := by
  have h := texture_missing_falls_back [] witTexBuilder witTexProgram
    [("albedo", MaterialProperty.texture 5)] ("albedo") 5 rfl
  obtain ⟨ha, hb⟩ := h.2 rfl
  exact ⟨hb, ha⟩

theorem builder_shape_trans {b b' b'' : DrawBuilder}
    (h1 : b' = { b with uniforms := b'.uniforms })
    (h2 : b'' = { b' with uniforms := b''.uniforms }) :
    b'' = { b with uniforms := b''.uniforms } := by
  calc b'' = { b' with uniforms := b''.uniforms } := h2
    _ = { b with uniforms := b''.uniforms } := by rw [h1]

theorem stageTransformUniforms_shape (b : DrawBuilder) (p : Program)
    (h : b.program = some p) (m1 m2 m3 m4 m5 m6 m7 : Mat) :
    ∃ b', stageTransformUniforms b m1 m2 m3 m4 m5 m6 m7 = some b'
      ∧ b' = { b with uniforms := b'.uniforms } := by
  obtain ⟨u1, h1⟩ := DrawBuilder.uniform_shape b p h
    ("model_transform") (.matrix m1 true)
  obtain ⟨u2, h2⟩ := DrawBuilder.uniform_shape { b with uniforms := u1 } p h
    ("normal_transform") (.matrix m2 true)
  have h2' : ({ b with uniforms := u1 } : DrawBuilder).uniform
      ("normal_transform") (.matrix m2 true) = some { b with uniforms := u2 } := h2
  obtain ⟨u3, h3⟩ := DrawBuilder.uniform_shape { b with uniforms := u2 } p h
    ("view_normal_transform") (.matrix m3 true)
  have h3' : ({ b with uniforms := u2 } : DrawBuilder).uniform
      ("view_normal_transform") (.matrix m3 true) = some { b with uniforms := u3 } := h3
  obtain ⟨u4, h4⟩ := DrawBuilder.uniform_shape { b with uniforms := u3 } p h
    ("view_transform") (.matrix m4 true)
  have h4' : ({ b with uniforms := u3 } : DrawBuilder).uniform
      ("view_transform") (.matrix m4 true) = some { b with uniforms := u4 } := h4
  obtain ⟨u5, h5⟩ := DrawBuilder.uniform_shape { b with uniforms := u4 } p h
    ("model_view_transform") (.matrix m5 true)
  have h5' : ({ b with uniforms := u4 } : DrawBuilder).uniform
      ("model_view_transform") (.matrix m5 true) = some { b with uniforms := u5 } := h5
  obtain ⟨u6, h6⟩ := DrawBuilder.uniform_shape { b with uniforms := u5 } p h
    ("projection_transform") (.matrix m6 true)
  have h6' : ({ b with uniforms := u5 } : DrawBuilder).uniform
      ("projection_transform") (.matrix m6 true) = some { b with uniforms := u6 } := h6
  obtain ⟨u7, h7⟩ := DrawBuilder.uniform_shape { b with uniforms := u6 } p h
    ("model_view_projection") (.matrix m7 true)
  have h7' : ({ b with uniforms := u6 } : DrawBuilder).uniform
      ("model_view_projection") (.matrix m7 true) = some { b with uniforms := u7 } := h7
  refine ⟨{ b with uniforms := u7 }, ?_, rfl⟩
  simp only [stageTransformUniforms, h1, h2', h3', h4', h5', h6', h7',
    Option.bind_eq_bind, Option.some_bind]

theorem renderLight_spec (anchors : List (Nat × Anchor)) (vt : Mat)
    (b : DrawBuilder) (p : Program) (light : Light)
    (hprog : b.program = some p)
    (hanch : ∀ r, light.data = .point r →
      ∃ a w, light.anchor = some a ∧ lookupNat anchors a = some w) :
    ∃ b' call, renderLight anchors vt b light = some (b', call)
      ∧ call = b'.draw
      ∧ b' = { b with uniforms := b'.uniforms } := by
  obtain ⟨lanch, lcolor, lstrength, ldata⟩ := light
  obtain ⟨u1, h1⟩ := DrawBuilder.uniform_shape b p hprog
    ("light_color") (.f32x4 (.lit lcolor.r lcolor.g lcolor.b lcolor.a))
  obtain ⟨u2, h2⟩ := DrawBuilder.uniform_shape { b with uniforms := u1 } p hprog
    ("light_strength") (.f32 lstrength)
  have h2' : ({ b with uniforms := u1 } : DrawBuilder).uniform
      ("light_strength") (.f32 lstrength) = some { b with uniforms := u2 } := h2
  cases ldata with
  | point radius =>
    obtain ⟨a, w, ha, hw⟩ := hanch radius rfl
    obtain ⟨u3, h3⟩ := DrawBuilder.uniform_shape { b with uniforms := u2 } p hprog
      ("light_type") (.i32 1)
    have h3' : ({ b with uniforms := u2 } : DrawBuilder).uniform
        ("light_type") (.i32 1) = some { b with uniforms := u3 } := h3
    obtain ⟨u4, h4⟩ := DrawBuilder.uniform_shape { b with uniforms := u3 } p hprog
      ("light_position") (.f32x4 (.ofVec w.position))
    have h4' : ({ b with uniforms := u3 } : DrawBuilder).uniform
        ("light_position") (.f32x4 (.ofVec w.position))
        = some { b with uniforms := u4 } := h4
    obtain ⟨u5, h5⟩ := DrawBuilder.uniform_shape { b with uniforms := u4 } p hprog
      ("light_position_view") (.f32x4 (.ofVec (Vec.mulMat w.position vt)))
    have h5' : ({ b with uniforms := u4 } : DrawBuilder).uniform
        ("light_position_view") (.f32x4 (.ofVec (Vec.mulMat w.position vt)))
        = some { b with uniforms := u5 } := h5
    obtain ⟨u6, h6⟩ := DrawBuilder.uniform_shape { b with uniforms := u5 } p hprog
      ("light_radius") (.f32 radius)
    have h6' : ({ b with uniforms := u5 } : DrawBuilder).uniform
        ("light_radius") (.f32 radius) = some { b with uniforms := u6 } := h6
    refine ⟨{ b with uniforms := u6 },
      ({ b with uniforms := u6 } : DrawBuilder).draw, ?_, rfl, rfl⟩
    subst ha
    simp only [renderLight, h1, h2', h3', hw, h4', h5', h6',
      Option.bind_eq_bind, Option.some_bind]
  | directional direction =>
    obtain ⟨u3, h3⟩ := DrawBuilder.uniform_shape { b with uniforms := u2 } p hprog
      ("light_type") (.i32 2)
    have h3' : ({ b with uniforms := u2 } : DrawBuilder).uniform
        ("light_type") (.i32 2) = some { b with uniforms := u3 } := h3
    obtain ⟨u4, h4⟩ := DrawBuilder.uniform_shape { b with uniforms := u3 } p hprog
      ("light_direction") (.f32x3 (.ofVec direction))
    have h4' : ({ b with uniforms := u3 } : DrawBuilder).uniform
        ("light_direction") (.f32x3 (.ofVec direction))
        = some { b with uniforms := u4 } := h4
    obtain ⟨u5, h5⟩ := DrawBuilder.uniform_shape { b with uniforms := u4 } p hprog
      ("light_direction_view") (.f32x3 (.ofVec (Vec.mulMat direction vt)))
    have h5' : ({ b with uniforms := u4 } : DrawBuilder).uniform
        ("light_direction_view") (.f32x3 (.ofVec (Vec.mulMat direction vt)))
        = some { b with uniforms := u5 } := h5
    refine ⟨{ b with uniforms := u5 },
      ({ b with uniforms := u5 } : DrawBuilder).draw, ?_, rfl, rfl⟩
    simp only [renderLight, h1, h2', h3', h4', h5',
      Option.bind_eq_bind, Option.some_bind]

theorem renderLights_spec (anchors : List (Nat × Anchor)) (vt : Mat)
    (lights : List Light) :
    ∀ (b : DrawBuilder) (p : Program), b.program = some p →
    (∀ light ∈ lights, ∀ r, light.data = .point r →
      ∃ a w, light.anchor = some a ∧ lookupNat anchors a = some w) →
    ∃ calls, renderLights anchors vt b lights = some calls
      ∧ calls.length = lights.length
      ∧ ∀ c ∈ calls, c.depthTest = b.depthTest ∧ c.blend = b.blend
          ∧ c.cull = b.cull := by
  induction lights with
  | nil =>
    intro b p _ _
    exact ⟨[], rfl, rfl, by simp⟩
  | cons light rest ih =>
    intro b p hprog hanch
    obtain ⟨b', call, hrl, hcall, hshape⟩ := renderLight_spec anchors vt b p light
      hprog (fun r hr => hanch light (by simp) r hr)
    have hprog' : b'.program = some p := by rw [hshape]; exact hprog
    obtain ⟨calls, hrls, hlen, hfields⟩ := ih b' p hprog'
      (fun l hl r hr => hanch l (by simp [hl]) r hr)
    refine ⟨call :: calls, ?_, by simp [hlen], ?_⟩
    · simp only [renderLights, hrl, hrls, Option.bind_eq_bind, Option.some_bind]
    · intro c hc
      rcases List.mem_cons.mp hc with hc | hc
      · subst hc
        rw [hcall]
        refine ⟨?_, ?_, ?_⟩ <;> rw [hshape] <;> rfl
      · obtain ⟨hd, hb, hcu⟩ := hfields c hc
        have e1 : b'.depthTest = b.depthTest := by rw [hshape]
        have e2 : b'.blend = b.blend := by rw [hshape]
        have e3 : b'.cull = b.cull := by rw [hshape]
        exact ⟨hd.trans e1, hb.trans e2, hcu.trans e3⟩

theorem renderInstance_spec (s : GlState) (cameraAnchor : Anchor)
    (camera : Camera) (anchor : Anchor) (mi : MeshInstance)
    (lightEnum : List Light) (meshData : MeshData) (p : Program) (lloc : Nat)
    (hmesh : lookupNat s.meshes mi.mesh = some meshData)
    (hprog : lookupNat s.programs mi.material.shader = some p)
    (hlt : p.getUniformLocation ("light_type") = some lloc)
    (hlights : ∀ light ∈ lightEnum, ∀ r, light.data = .point r →
      ∃ a w, light.anchor = some a ∧ lookupNat s.anchors a = some w) :
    ∃ c0 rest, renderInstance s cameraAnchor camera anchor mi lightEnum
        = some (c0 :: rest)
      ∧ c0.program = some p
      ∧ c0.cull = some Face.back
      ∧ c0.depthTest = some Comparison.less
      ∧ c0.blend = defaultBlend
      ∧ lookupNat c0.uniforms lloc = some (.i32 0)
      ∧ rest.length = lightEnum.length
      ∧ ∀ c ∈ rest, c.depthTest = some Comparison.lessThanOrEqual
          ∧ c.blend = (.one, .one) := by
  have hp0 : ((((DrawBuilder.new meshData.vertexArray DrawMode.triangles).setProgram
      p).setCull Face.back).setDepthTest Comparison.less).program = some p := rfl
  have hm1 := DrawBuilder.mapAttribName_of_program _ p hp0
    ("position") ("vertex_position")
  have hm2 := DrawBuilder.mapAttribName_of_program _ p hp0
    ("normal") ("vertex_normal")
  have hm3 := DrawBuilder.mapAttribName_of_program _ p hp0
    ("texcoord") ("vertex_uv0")
  obtain ⟨b1, hst, hsh1⟩ := stageTransformUniforms_shape _ p hp0
    anchor.matrixM anchor.normalMatrixM
    (Mat.transposed (Mat.mul (Mat.transposed anchor.normalMatrixM)
      cameraAnchor.inverseViewMatrixM))
    cameraAnchor.viewMatrixM
    (Mat.mul cameraAnchor.viewMatrixM anchor.matrixM)
    camera.projectionMatrixM
    (Mat.mul camera.projectionMatrixM
      (Mat.mul cameraAnchor.viewMatrixM anchor.matrixM))
  have hp1 : b1.program = some p := by rw [hsh1]; exact hp0
  obtain ⟨ug, hga⟩ := DrawBuilder.uniform_shape b1 p hp1 ("global_ambient")
    (.f32x4 (.lit s.ambientColor.r s.ambientColor.g s.ambientColor.b
      s.ambientColor.a))
  obtain ⟨uc, hcp⟩ := DrawBuilder.uniform_shape { b1 with uniforms := ug } p hp1
    ("camera_position") (.f32x4 (.ofVec cameraAnchor.position))
  have hcp' : ({ b1 with uniforms := ug } : DrawBuilder).uniform
      ("camera_position") (.f32x4 (.ofVec cameraAnchor.position))
      = some { b1 with uniforms := uc } := hcp
  obtain ⟨b4, hsmp, hsh4⟩ := stageMaterialProperties_total s.textures
    GlTexture2d.defaultEmpty mi.material.properties
    { b1 with uniforms := uc } p hp1
  have hsh4' : b4 = { b1 with uniforms := b4.uniforms } := hsh4
  have hp4 : b4.program = some p := by rw [hsh4']; exact hp1
  have hfound := DrawBuilder.uniform_found b4 p hp4 ("light_type") lloc hlt (.i32 0)
  have hp6 : ((({ b4 with uniforms := insertNat b4.uniforms lloc (.i32 0) }
      : DrawBuilder).setDepthTest Comparison.lessThanOrEqual).setBlend
      SourceFactor.one DestFactor.one).program = some p := hp4
  obtain ⟨calls, hrls, hlen, hfields⟩ := renderLights_spec s.anchors
    cameraAnchor.viewMatrixM lightEnum _ p hp6 hlights
  have hcull : b4.cull = some Face.back := by rw [hsh4', hsh1]; rfl
  have hdt : b4.depthTest = some Comparison.less := by rw [hsh4', hsh1]; rfl
  have hbl : b4.blend = defaultBlend := by rw [hsh4', hsh1]; rfl
  refine ⟨({ b4 with uniforms := insertNat b4.uniforms lloc (.i32 0) }
      : DrawBuilder).draw, calls, ?_, hp4, hcull, hdt, hbl,
    lookupNat_insertNat_self b4.uniforms lloc (.i32 0), hlen, ?_⟩
  · simp only [renderInstance, hmesh, hprog, hm1, hm2, hm3, hst, hga, hcp',
      hsmp, hfound, hrls, Option.bind_eq_bind, Option.some_bind]
  · intro c hc
    obtain ⟨h1, h2, _⟩ := hfields c hc
    exact ⟨h1.trans rfl, h2.trans rfl⟩

/-- C1: in a frame with one registered camera (whose anchor exists) and one
registered mesh instance bound to an existing anchor (with its mesh and
program registered, the program resolving `light_type`, and every registered
point light anchored), the frame issues an ambient draw call with back-face
culling, less-than depth test, `light_type` uniform 0 and default (no-op)
blending, followed by exactly one additional draw call per registered light,
each with the depth test switched to less-or-equal and additive blending
(source one, dest one); with zero lights the ambient call is the frame's
only draw call. -/
theorem draw_frame_ambient_and_light_passes
    (s : GlState) (cameraEnum : List Camera) (miEnum : List MeshInstance)
    (lightEnum : List Light) (camera : Camera) (mi : MeshInstance)
    (caid aid : Nat) (cameraAnchor anchor : Anchor) (meshData : MeshData)
    (p : Program) (lloc : Nat)
    (hcams : s.cameras.map Prod.snd = [camera])
    (hcamE : cameraEnum.Perm (s.cameras.map Prod.snd))
    (hca : camera.anchor = some caid)
    (hcaA : lookupNat s.anchors caid = some cameraAnchor)
    (hmis : s.meshInstances.map Prod.snd = [mi])
    (hmiE : miEnum.Perm (s.meshInstances.map Prod.snd))
    (hmia : mi.anchor = some aid)
    (haA : lookupNat s.anchors aid = some anchor)
    (hmesh : lookupNat s.meshes mi.mesh = some meshData)
    (hprog : lookupNat s.programs mi.material.shader = some p)
    (hlt : p.getUniformLocation ("light_type") = some lloc)
    (hlE : lightEnum.Perm (s.lights.map Prod.snd))
    (hlanch : ∀ light ∈ lightEnum, ∀ r, light.data = .point r →
      ∃ a w, light.anchor = some a ∧ lookupNat s.anchors a = some w) :
    ∃ c0 rest,
      drawFrame s cameraEnum miEnum lightEnum = some (c0 :: rest)
      ∧ c0.cull = some Face.back
      ∧ c0.depthTest = some Comparison.less
      ∧ c0.blend = defaultBlend
      ∧ lookupNat c0.uniforms lloc = some (.i32 0)
      ∧ rest.length = s.lights.length
      ∧ (s.lights = [] → drawFrame s cameraEnum miEnum lightEnum = some [c0])
      ∧ ∀ c ∈ rest, c.depthTest = some Comparison.lessThanOrEqual
          ∧ c.blend = (.one, .one) := by
  rw [hcams] at hcamE
  have hce : cameraEnum = [camera] := List.perm_singleton.mp hcamE
  rw [hmis] at hmiE
  have hmie : miEnum = [mi] := List.perm_singleton.mp hmiE
  obtain ⟨c0, rest, hri, _, hcull, hdt, hbl, hlu, hlen, hfields⟩ :=
    renderInstance_spec s cameraAnchor camera anchor mi lightEnum meshData p
      lloc hmesh hprog hlt hlanch
  have hframe : drawFrame s cameraEnum miEnum lightEnum
      = some ((c0 :: rest) ++ []) := by
    rw [hce, hmie]
    simp only [drawFrame, List.head?, hca, hcaA, renderInstances, hmia, haA,
      hri, Option.bind_eq_bind, Option.some_bind]
  have hlen' : rest.length = s.lights.length := by
    rw [hlen, hlE.length_eq, List.length_map]
  refine ⟨c0, rest, by simpa using hframe, hcull, hdt, hbl, hlu, hlen', ?_,
    hfields⟩
  intro hl0
  have hrest : rest = [] := List.eq_nil_of_length_eq_zero (by rw [hlen', hl0]; rfl)
  rw [hrest] at hframe
  simpa using hframe

/-- Witness for C1: the one-camera, one-instance scene with two registered
lights (one directional, one anchored point light) renders exactly three
draw calls: the ambient pass plus one per light. -/
theorem draw_frame_ambient_and_light_passes_witness :
    (drawFrame witState [witCamera] [witMeshInstance]
        [witLightDir, witLightPoint]).map List.length = some 3 := by
  have hlanch : ∀ light ∈ [witLightDir, witLightPoint], ∀ r,
      light.data = LightData.point r →
      ∃ a w, light.anchor = some a ∧ lookupNat witState.anchors a = some w := by
    intro light hl r hr
    rcases List.mem_cons.mp hl with h | h
    · subst h
      simp [witLightDir] at hr
    · rcases List.mem_singleton.mp h with h2
      subst h2
      exact ⟨0, witAnchor, rfl, rfl⟩
  obtain ⟨c0, rest, hdf, _, _, _, _, hlen, _, _⟩ :=
    draw_frame_ambient_and_light_passes witState [witCamera] [witMeshInstance]
      [witLightDir, witLightPoint] witCamera witMeshInstance 0 0 witAnchor
      witAnchor witMeshData witProgram 5 rfl (List.Perm.refl _) rfl rfl rfl
      (List.Perm.refl _) rfl rfl rfl rfl rfl (List.Perm.refl _) hlanch
  rw [hdf]
  simp only [Option.map_some', List.length_cons, hlen]
  rfl

end Gunship
